import Mathlib

/-!
Verification of the Caldera voice-interaction session controller
(`Interface.py`): a shallow embedding of its data model, the audio
preprocessing utility, the loading-indicator task, the `analyze` and
`listen` steps, the `run` loop with its deep-sleep finalizer, and the
SIGINT shutdown handler, together with theorems settling the spec's
claims about them.

Modelling conventions:
* `numpy` float arithmetic is embedded as `FVal`, exact rationals
  extended with IEEE-style `nan` and signed infinities; division follows
  IEEE/numpy semantics (`0/0 = nan`, `x/0 = ±inf`).  The final
  `astype(np.float32)` rounding is abstracted away (the spec states its
  properties only up to floating-point tolerance).
* `librosa.resample` is an external collaborator; `preprocess_audio`
  takes it as an opaque function argument.  All claims about
  preprocessing concern the same-rate path, where it is not invoked.
* asyncio's single-threaded cooperative scheduling is embedded as
  deterministic event traces (`Ev`): a coroutine yields control only at
  an `await`, and a `Task` made by `create_task` first runs when the
  creating coroutine next suspends.  Cancelling a task that has never
  started prevents its body from ever executing: CPython throws
  `CancelledError` into the un-started coroutine, so the body — and in
  particular its `try`/`except` — is never entered.
-/

namespace Caldera

/-- IEEE-style float value: an exact rational, a signed infinity, or NaN.
Embeds the numpy float arrays flowing through `preprocess_audio`. -/
inductive FVal where
  | fin : ℚ → FVal
  | posinf : FVal
  | neginf : FVal
  | nan : FVal
  deriving DecidableEq, Repr

/-- Absolute value, `np.abs` on one element. NaN propagates. -/
def FVal.abs : FVal → FVal
  | .fin q => .fin |q|
  | .posinf => .posinf
  | .neginf => .posinf
  | .nan => .nan

/-- IEEE/numpy division of one element: `0/0 = nan`, nonzero`/0 = ±inf`,
NaN propagates, finite`/`infinite `= 0`. -/
def FVal.div : FVal → FVal → FVal
  | .nan, _ => .nan
  | _, .nan => .nan
  | .fin a, .fin b =>
      if b = 0 then (if a = 0 then .nan else if 0 < a then .posinf else .neginf)
      else .fin (a / b)
  | .fin _, .posinf => .fin 0
  | .fin _, .neginf => .fin 0
  | .posinf, .fin b => if 0 ≤ b then .posinf else .neginf
  | .neginf, .fin b => if 0 ≤ b then .neginf else .posinf
  | .posinf, .posinf => .nan
  | .posinf, .neginf => .nan
  | .neginf, .posinf => .nan
  | .neginf, .neginf => .nan

/-- Binary maximum as `np.max` computes it: NaN propagates. -/
def FVal.max2 : FVal → FVal → FVal
  | .nan, _ => .nan
  | _, .nan => .nan
  | .posinf, _ => .posinf
  | _, .posinf => .posinf
  | .neginf, y => y
  | x, .neginf => x
  | .fin a, .fin b => .fin (max a b)

/-- `np.max` over an array: `none` on the empty array (numpy raises
`ValueError` there), otherwise the NaN-propagating fold of `FVal.max2`. -/
def npMax : List FVal → Option FVal
  | [] => none
  | x :: xs => some (xs.foldl FVal.max2 x)

/-- `Interface.preprocess_audio(audio_arr, sample_rate, target_sr)`:
resample via the external `librosa.resample` (passed in as `resample`)
only when the rates differ, then divide every sample by the peak
absolute value `np.max(np.abs(audio_arr))`.  Returns `none` when the
code would raise (empty buffer: `np.max` of an empty array).  The
`astype(np.float32)` cast is modelled as the identity on exact values. -/
def preprocess_audio (resample : List FVal → ℕ → ℕ → List FVal)
    (audio_arr : List FVal) (sample_rate target_sr : ℕ) : Option (List FVal) :=
  let a := if sample_rate ≠ target_sr then resample audio_arr sample_rate target_sr
           else audio_arr
  match npMax (a.map FVal.abs) with
  | none => none
  | some peak => some (a.map (fun x => FVal.div x peak))

/-- The Device Link hardware handle (`frame_sdk.Frame`): exposes a
display sub-resource and a microphone sample rate.  Opaque handles are
modelled as natural-number identifiers. -/
structure FrameDev where
  display : ℕ
  sampleRate : ℕ
  deriving DecidableEq, Repr

/-- The mutable attribute state of the `Interface` session controller:
`self.frame`, `self.display`, `self.sample_rate` (all nullable before a
Device Link is attached) and whether `self.whisper` holds a loaded
model. -/
structure InterfaceState where
  frame : Option FrameDev
  display : Option ℕ
  sample_rate : Option ℕ
  whisperLoaded : Bool
  deriving DecidableEq, Repr

/-- `Interface.__init__(frame)`: each hardware-derived attribute is the
corresponding field of `frame` when it is not `None`, else `None`; the
Whisper model is loaded unconditionally. -/
def InterfaceState.init (frame : Option FrameDev) : InterfaceState :=
  { frame := frame
    display := frame.map FrameDev.display
    sample_rate := frame.map FrameDev.sampleRate
    whisperLoaded := true }

/-- `Interface.set_frame(frame)`: the body is guarded by
`if frame is not None`, so passing `None` modifies nothing. -/
def InterfaceState.set_frame (s : InterfaceState) (frame : Option FrameDev) :
    InterfaceState :=
  match frame with
  | none => s
  | some f => { s with frame := some f, display := some f.display,
                       sample_rate := some f.sampleRate }

/-- Observable events of the session: display renders, display commits,
hardware calls, the transcription pipeline steps, and the run loop's
suspension points. -/
inductive Ev where
  | renderSplash
  | splashDwell
  | wipeDisplay
  | writeListening
  | updateDisplay
  | recordAudio
  | showLoading (dots : ℕ)
  | tick
  | preprocessEv
  | transcribeEv
  | printTranscription
  | cancelLoading
  | joinLoading
  | waitForTap
  | renderSleepMsg (deep : Bool)
  | settle
  | deviceSleep (deep : Bool)
  deriving DecidableEq, Repr

/-- Whether an event is a display render issued by the loading
indicator's animation loop. -/
def Ev.isLoadingRender : Ev → Bool
  | .showLoading _ => true
  | _ => false

/-- Completion outcome of one coroutine call. -/
inductive Outcome where
  | ok
  | error
  | cancelled
  deriving DecidableEq, Repr

/-- The body of `Interface.write_loading` once it is running: each loop
iteration renders `"Loading" + "." * dots` (`showLoading dots`), updates
`dots = dots + 1 if dots < 3 else 0`, then sleeps 0.5 s (`tick`).
`k` counts the awaits that still complete before `CancelledError` is
delivered: `k = 0` cancels at the next `show_text`, `k = 1` cancels at
the first `asyncio.sleep` (mid-iteration), and so on. -/
def loadingLoop (dots : ℕ) : ℕ → List Ev
  | 0 => []
  | 1 => [Ev.showLoading dots]
  | k + 2 => Ev.showLoading dots :: Ev.tick ::
      loadingLoop (if dots < 3 then dots + 1 else 0) k

/-- `Interface.write_loading`, entered and then cancelled after `k`
completed awaits: the `except asyncio.CancelledError` handler catches
the cancellation wherever it lands and runs `await self.wipe_display()`
once; the coroutine then returns normally (the cancellation is
swallowed, not re-raised). -/
def write_loading (cancelAt : ℕ) : List Ev × Outcome :=
  (loadingLoop 0 cancelAt ++ [Ev.wipeDisplay], Outcome.ok)

/-- asyncio `Task` semantics for the loading-indicator task.
`some k` means the task got to run and was cancelled after `k` completed
awaits (the body's handler runs, `write_loading`).  `none` means the
task was cancelled before its first scheduling slot: the coroutine body
never executes, so no render — the cleanup render included — ever
happens, and the task finishes as `cancelled`. -/
def loadingTaskRun : Option ℕ → List Ev × Outcome
  | none => ([], Outcome.cancelled)
  | some k => write_loading k

/-- `Interface.analyze(audio_arr)`: create the loading task, then run
`preprocess_audio` and the blocking synchronous `whisper.transcribe`
(which prints the text on success), with a `finally` that cancels the
loading task and awaits it under `suppress(CancelledError)`
(`cancelLoading` then `joinLoading`).  There is no `await` between
`create_task` and the `finally`, so the loading task never gets a
scheduling slot before it is cancelled: its contribution to the trace is
`loadingTaskRun none`.  `tranOk = false` models `transcribe` raising;
the exception propagates after the `finally` has run. -/
def analyze (tranOk : Bool) : List Ev × Outcome :=
  let bodyTr := if tranOk then [Ev.preprocessEv, Ev.transcribeEv, Ev.printTranscription]
                else [Ev.preprocessEv, Ev.transcribeEv]
  (bodyTr ++ [Ev.cancelLoading] ++ (loadingTaskRun none).1 ++ [Ev.joinLoading],
   if tranOk then Outcome.ok else Outcome.error)

/-- `Interface.listen`: render the "Listening..." prompt, commit the
display, then `record_audio` (bounded by the 3 s silence cutoff and 30 s
maximum).  The trailing `wipe_display` is not protected by any
`try`/`finally`: when `record_audio` raises (`captureOk = false`) the
exception propagates immediately and the wipe is skipped. -/
def listen (captureOk : Bool) : List Ev × Outcome :=
  if captureOk then
    ([Ev.writeListening, Ev.updateDisplay, Ev.recordAudio, Ev.wipeDisplay], Outcome.ok)
  else
    ([Ev.writeListening, Ev.updateDisplay, Ev.recordAudio], Outcome.error)

/-- How one iteration of the `while True` loop in `Interface.run` goes:
a clean tap/listen/analyze cycle, a capture failure, a transcription
failure, or a cancellation delivered while suspended in
`wait_for_tap` (the shutdown path: `main` exits on the stop event and
asyncio's teardown cancels the run task at its suspension point). -/
inductive CycleSpec where
  | okCycle
  | listenErr
  | analyzeErr
  | interrupt
  deriving DecidableEq, Repr

/-- How `Interface.run`'s loop ended: still looping (script exhausted
without a terminating event), exited by an uncaught exception, or exited
by cancellation. -/
inductive LoopExit where
  | running
  | errored
  | cancelled
  deriving DecidableEq, Repr

/-- The `while True` loop of `Interface.run`, driven by a script of
cycle outcomes.  There is no `try`/`except` inside the loop: a failure
in `listen` or `analyze` leaves the loop at once, and the script's
remaining entries are never reached. -/
def runLoop : List CycleSpec → List Ev × LoopExit
  | [] => ([], LoopExit.running)
  | CycleSpec.okCycle :: rest =>
      (Ev.waitForTap :: ((listen true).1 ++ (analyze true).1 ++ (runLoop rest).1),
       (runLoop rest).2)
  | CycleSpec.listenErr :: _ =>
      (Ev.waitForTap :: (listen false).1, LoopExit.errored)
  | CycleSpec.analyzeErr :: _ =>
      (Ev.waitForTap :: ((listen true).1 ++ (analyze false).1), LoopExit.errored)
  | CycleSpec.interrupt :: _ =>
      ([Ev.waitForTap], LoopExit.cancelled)

/-- The splash prologue of `Interface.run`: `write_splash` (its display
calls compressed to one render plus the commit), the 2.5 s dwell, then
`wipe_display`. -/
def splashSeq : List Ev :=
  [Ev.renderSplash, Ev.updateDisplay, Ev.splashDwell, Ev.wipeDisplay]

/-- `Interface.sleep(deep_sleep)`: render the sleep message, commit,
hold for the 2 s settle time, then command the Device Link to sleep. -/
def sleepSeq (deep : Bool) : List Ev :=
  [Ev.renderSleepMsg deep, Ev.updateDisplay, Ev.settle, Ev.deviceSleep deep]

/-- `Interface.run`: splash prologue, then the loop; the `finally`
appends `sleep(deep_sleep=True)` exactly when the loop exits (by error
or cancellation).  While the loop is still running the finalizer has not
executed. -/
def run (script : List CycleSpec) : List Ev × LoopExit :=
  match runLoop script with
  | (tr, LoopExit.running) => (splashSeq ++ tr, LoopExit.running)
  | (tr, e) => (splashSeq ++ tr ++ sleepSeq true, e)

/-- The SIGINT machinery of `main`: whether the custom handler is still
installed, whether `stop_event` is set, and how many times the handler
body has run. -/
structure ShutdownState where
  handlerInstalled : Bool
  stopSet : Bool
  handlerRuns : ℕ
  deriving DecidableEq, Repr

/-- State at process start: handler installed by
`add_signal_handler(SIGINT, ...)`, stop event clear. -/
def initShutdown : ShutdownState :=
  { handlerInstalled := true, stopSet := false, handlerRuns := 0 }

/-- The body of `main.handle_interrupt`: first
`remove_signal_handler(SIGINT)` (deregistering itself), then print, then
`stop_event.set()`. -/
def handle_interrupt (s : ShutdownState) : ShutdownState :=
  { handlerInstalled := false, stopSet := true, handlerRuns := s.handlerRuns + 1 }

/-- What one SIGINT delivery does, as observed by the process. -/
inductive SigOutcome where
  | handled
  | keyboardInterrupt
  deriving DecidableEq, Repr

/-- Delivery of one SIGINT.  While the custom handler is installed it
runs `handle_interrupt`.  After `remove_signal_handler(SIGINT)` CPython
has restored `signal.default_int_handler`, so a further delivery raises
`KeyboardInterrupt` in the main thread: the shutdown machinery's own
state is untouched, but the exception lands in whatever the main thread
is executing (an in-progress deep-sleep finalizer included). -/
def deliverInterrupt (s : ShutdownState) : ShutdownState × SigOutcome :=
  if s.handlerInstalled then (handle_interrupt s, SigOutcome.handled)
  else (s, SigOutcome.keyboardInterrupt)

/-- Delivery of `n` successive SIGINTs: the final state of the shutdown
machinery and the outcome of each delivery in order. -/
def deliverN : ℕ → ShutdownState → ShutdownState × List SigOutcome
  | 0, s => (s, [])
  | n + 1, s =>
      ((deliverN n (deliverInterrupt s).1).1,
       (deliverInterrupt s).2 :: (deliverN n (deliverInterrupt s).1).2)

end Caldera

namespace Caldera

/-- Division by the finite value 1 is the identity, in every branch of
`FVal.div`. -/
theorem FVal.div_one (x : FVal) : FVal.div x (FVal.fin 1) = x := by
  cases x with
  | fin a => simp [FVal.div]
  | posinf => simp [FVal.div]
  | neginf => norm_num [FVal.div]
  | nan => rfl

/-- The animation loop of the loading indicator never clears the
display: its only renders are `showLoading` frames and timer ticks. -/
theorem loadingLoop_no_wipe : ∀ (k dots : ℕ), Ev.wipeDisplay ∉ loadingLoop dots k := by
  intro k
  induction k using Nat.strong_induction_on with
  | _ k ih =>
    match k with
    | 0 => intro dots; simp [loadingLoop]
    | 1 => intro dots; simp [loadingLoop]
    | k + 2 =>
        intro dots
        simp only [loadingLoop, List.mem_cons, not_or]
        exact ⟨by simp, by simp, ih k (by omega) _⟩

/-- The run loop itself never issues the deep-sleep hardware command;
that event comes only from the `finally` finalizer. -/
theorem runLoop_no_deviceSleep :
    ∀ script : List CycleSpec, Ev.deviceSleep true ∉ (runLoop script).1 := by
  intro script
  induction script with
  | nil => simp [runLoop]
  | cons c rest ih =>
      cases c with
      | okCycle =>
          show Ev.deviceSleep true ∉
            Ev.waitForTap :: ((listen true).1 ++ (analyze true).1 ++ (runLoop rest).1)
          intro hmem
          rcases List.mem_cons.mp hmem with h | h
          · exact absurd h (by decide)
          · rcases List.mem_append.mp h with h2 | h2
            · exact absurd h2 (by decide)
            · exact ih h2
      | listenErr =>
          show Ev.deviceSleep true ∉ Ev.waitForTap :: (listen false).1
          decide
      | analyzeErr =>
          show Ev.deviceSleep true ∉
            Ev.waitForTap :: ((listen true).1 ++ (analyze false).1)
          decide
      | interrupt =>
          show Ev.deviceSleep true ∉ [Ev.waitForTap]
          decide

/-- Claim C9: preprocessing a buffer already at the target sample rate
whose peak absolute amplitude is 1 returns the same buffer (exactly, in
the exact-arithmetic model, hence within floating-point tolerance):
normalization is idempotent under re-normalization. -/
theorem preprocess_audio_peak_one_idempotent
    (resample : List FVal → ℕ → ℕ → List FVal) (audio_arr : List FVal) (sr : ℕ)
    (h : npMax (audio_arr.map FVal.abs) = some (FVal.fin 1)) :
    preprocess_audio resample audio_arr sr sr = some audio_arr := by
  unfold preprocess_audio
  simp only [ne_eq, not_true_eq_false, if_neg, ite_false, h]
  simp [FVal.div_one, List.map_id]

/-- Concrete instantiation of the idempotence theorem on the buffer
`[1, 1/2]` at 16 kHz: its peak is 1 and preprocessing returns it
unchanged. -/
theorem preprocess_audio_peak_one_idempotent_witness :
    npMax (([FVal.fin 1, FVal.fin (1/2)]).map FVal.abs) = some (FVal.fin 1) ∧
    preprocess_audio (fun a _ _ => a) [FVal.fin 1, FVal.fin (1/2)] 16000 16000 =
      some [FVal.fin 1, FVal.fin (1/2)] :=
  ⟨by norm_num [npMax, FVal.abs, FVal.max2, abs_le],
   preprocess_audio_peak_one_idempotent (fun a _ _ => a)
     [FVal.fin 1, FVal.fin (1/2)] 16000
     (by norm_num [npMax, FVal.abs, FVal.max2, abs_le])⟩

/-- Claim C6 (code evaluation at the failing input): preprocessing the
all-zero buffer `[0, 0, 0]` at the target rate does not raise — but
every sample is divided by the zero peak, `0/0 = NaN`, so the result is
the all-NaN buffer, not the all-zero buffer: the zero-peak guard the
spec requires is absent. -/
theorem preprocess_audio_all_zero_gives_nan :
    preprocess_audio (fun a _ _ => a) [FVal.fin 0, FVal.fin 0, FVal.fin 0]
        16000 16000 = some [FVal.nan, FVal.nan, FVal.nan] ∧
    preprocess_audio (fun a _ _ => a) [FVal.fin 0, FVal.fin 0, FVal.fin 0]
        16000 16000 ≠ some [FVal.fin 0, FVal.fin 0, FVal.fin 0] := by
  constructor <;> decide

/-- Claim C10: constructing the session controller with no Device Link
leaves the device reference, display reference and cached sample rate
`None` while the Transcriber is still loaded; and `set_frame(None)`
leaves every attribute of every state unchanged. -/
theorem init_none_and_set_frame_none :
    (InterfaceState.init none).frame = none ∧
    (InterfaceState.init none).display = none ∧
    (InterfaceState.init none).sample_rate = none ∧
    (InterfaceState.init none).whisperLoaded = true ∧
    ∀ s : InterfaceState, s.set_frame none = s := by
  refine ⟨rfl, rfl, rfl, rfl, fun s => rfl⟩

/-- Claim C4: wherever in its tick cycle the cancellation lands — at a
`show_text` render (even `k`, mid-render included) or at the inter-frame
sleep (odd `k`) — the loading indicator performs exactly one cleanup
render, it is the last thing it does, and the cancellation is swallowed
as a normal outcome rather than propagated as an error. -/
theorem write_loading_cancel_cleanup_once :
    ∀ cancelAt : ℕ, ∃ p, (write_loading cancelAt).1 = p ++ [Ev.wipeDisplay] ∧
      Ev.wipeDisplay ∉ p ∧ (write_loading cancelAt).2 = Outcome.ok :=
  fun cancelAt =>
    ⟨loadingLoop 0 cancelAt, rfl, loadingLoop_no_wipe cancelAt 0, rfl⟩

/-- Claim C3 counterexample: in a successful transcription cycle the
transcription attempt occurs, yet the trace of `analyze` contains no
loading-indicator render at all — so no first render of the indicator
happens before the first transcription attempt.  (`transcribe` is called
synchronously, with no suspension point after `create_task`, so the
indicator task never runs.) -/
theorem analyze_render_order_refuted :
    Ev.transcribeEv ∈ (analyze true).1 ∧
    ((analyze true).1.any Ev.isLoadingRender) = false := by
  constructor <;> decide

/-- Claim C3 amended: in every transcription cycle (success or failure)
the loading indicator never renders at all — the indicator task is
cancelled before its first scheduling slot — while the transcription
attempt does occur. -/
theorem analyze_never_renders_loading :
    ∀ tranOk : Bool, ((analyze tranOk).1.any Ev.isLoadingRender) = false ∧
      Ev.transcribeEv ∈ (analyze tranOk).1 := by
  decide

/-- Claim C5 counterexample: the loading indicator's cleanup render
never occurs inside `analyze` — the task is cancelled before it ever
starts, so its `except` handler (and the `wipe_display` in it) never
runs; "its cleanup rendered before the call returns" fails. -/
theorem analyze_no_cleanup_render :
    Ev.wipeDisplay ∉ (analyze true).1 := by
  decide

/-- Claim C5 amended: on every completion of `analyze` (success or
exception) the loading task is cancelled and joined as the last two
steps before the call returns, and the indicator performs no display
render at all — in particular none after `analyze` has returned. -/
theorem analyze_stops_indicator_before_return :
    ∀ tranOk : Bool,
      (∃ p, (analyze tranOk).1 = p ++ [Ev.cancelLoading, Ev.joinLoading]) ∧
      ((analyze tranOk).1.any Ev.isLoadingRender) = false ∧
      Ev.wipeDisplay ∉ (analyze tranOk).1 := by
  intro tranOk
  cases tranOk with
  | false =>
      exact ⟨⟨[Ev.preprocessEv, Ev.transcribeEv], rfl⟩, by decide, by decide⟩
  | true =>
      exact ⟨⟨[Ev.preprocessEv, Ev.transcribeEv, Ev.printTranscription], rfl⟩,
             by decide, by decide⟩

/-- Claim C8 counterexample: when the capture call raises, `listen` does
not clear the display — the claim's "regardless of outcome" fails
(there is no `try`/`finally` around `record_audio`). -/
theorem listen_failure_no_wipe :
    Ev.wipeDisplay ∉ (listen false).1 := by
  decide

/-- Claim C8 amended: the display is cleared after the capture call
exactly when the capture succeeds; on failure the exception propagates
with the "Listening..." render still on screen. -/
theorem listen_wipes_iff_capture_ok :
    ∀ captureOk : Bool, Ev.wipeDisplay ∈ (listen captureOk).1 ↔ captureOk = true := by
  decide

/-- Claim C1 counterexample: with a transcription failure in the first
cycle and a clean cycle scripted after it, the run loop exits with the
error instead of returning to WaitingForTap — the trace reaches
`waitForTap` exactly once and the session ends `errored`. -/
theorem run_error_not_recovered :
    (run [CycleSpec.analyzeErr, CycleSpec.okCycle]).2 = LoopExit.errored ∧
    (run [CycleSpec.analyzeErr, CycleSpec.okCycle]).1.count Ev.waitForTap = 1 := by
  constructor <;> decide

/-- Claim C1 amended: a transcription error in a cycle is not caught at
the cycle boundary: whatever cycles were scripted to follow, the loop
terminates at that cycle (no further WaitingForTap), runs the deep-sleep
finalizer, and propagates the error. -/
theorem run_error_terminates_loop :
    ∀ rest : List CycleSpec,
      (run (CycleSpec.analyzeErr :: rest)).2 = LoopExit.errored ∧
      (run (CycleSpec.analyzeErr :: rest)).1.count Ev.waitForTap = 1 ∧
      ∃ p, (run (CycleSpec.analyzeErr :: rest)).1 = p ++ sleepSeq true := by
  intro rest
  refine ⟨rfl, rfl, ⟨splashSeq ++ (runLoop (CycleSpec.analyzeErr :: rest)).1, rfl⟩⟩

/-- Claim C2: however the loop exits — uncaught error in a cycle or
cancellation from the interrupt-driven shutdown — the deep-sleep
sequence (render the sleep message, commit, settle, command the Device
Link to sleep) runs exactly once, as the final events before the process
exits: the trace ends with `sleepSeq true` and contains no other
deep-sleep command. -/
theorem run_exit_deep_sleep_once :
    ∀ script : List CycleSpec, (run script).2 ≠ LoopExit.running →
      ∃ p, (run script).1 = p ++ sleepSeq true ∧ Ev.deviceSleep true ∉ p := by
  intro script hexit
  rcases hrl : runLoop script with ⟨tr, ex⟩
  have htr : Ev.deviceSleep true ∉ tr := by
    have := runLoop_no_deviceSleep script
    rw [hrl] at this
    exact this
  cases ex with
  | running =>
      exfalso
      apply hexit
      show (run script).2 = LoopExit.running
      unfold run
      rw [hrl]
  | errored =>
      refine ⟨splashSeq ++ tr, ?_, ?_⟩
      · show (run script).1 = (splashSeq ++ tr) ++ sleepSeq true
        unfold run
        rw [hrl]
      · simp only [List.mem_append, not_or]
        exact ⟨by decide, htr⟩
  | cancelled =>
      refine ⟨splashSeq ++ tr, ?_, ?_⟩
      · show (run script).1 = (splashSeq ++ tr) ++ sleepSeq true
        unfold run
        rw [hrl]
      · simp only [List.mem_append, not_or]
        exact ⟨by decide, htr⟩

/-- Concrete instantiation of the deep-sleep guarantee: an interrupt
delivered while waiting for a tap ends the session with the deep-sleep
sequence as its unique finale. -/
theorem run_exit_deep_sleep_once_witness :
    (run [CycleSpec.interrupt]).2 ≠ LoopExit.running ∧
    ∃ p, (run [CycleSpec.interrupt]).1 = p ++ sleepSeq true ∧
      Ev.deviceSleep true ∉ p :=
  ⟨by decide, run_exit_deep_sleep_once [CycleSpec.interrupt] (by decide)⟩

/-- Once the custom handler has deregistered itself, the shutdown
machinery's state is a fixed point of delivery, but every further SIGINT
reaches the restored default handler and raises `KeyboardInterrupt`. -/
theorem deliverN_uninstalled_raises (n : ℕ) (s : ShutdownState)
    (h : s.handlerInstalled = false) :
    deliverN n s = (s, List.replicate n SigOutcome.keyboardInterrupt) := by
  induction n with
  | zero => rfl
  | succ n ih =>
      have hd : deliverInterrupt s = (s, SigOutcome.keyboardInterrupt) := by
        simp [deliverInterrupt, h]
      show ((deliverN n (deliverInterrupt s).1).1,
            (deliverInterrupt s).2 :: (deliverN n (deliverInterrupt s).1).2) =
        (s, List.replicate (n + 1) SigOutcome.keyboardInterrupt)
      rw [hd]
      simp [ih, List.replicate_succ]

/-- Claim C7 counterexample: a second SIGINT delivered while shutdown is
already in progress is not ignored — the handler deregistered itself, so
the delivery reaches the restored `signal.default_int_handler` and
raises `KeyboardInterrupt` in the main thread (able to abort the
in-progress deep-sleep finalizer) instead of having no effect. -/
theorem second_interrupt_raises_keyboard_interrupt :
    (deliverN 2 initShutdown).2 =
      [SigOutcome.handled, SigOutcome.keyboardInterrupt] := by
  decide

/-- Claim C7 amended: a second SIGINT during shutdown never re-enters
`handle_interrupt` and cannot trigger a duplicate shutdown sequence —
for any number of deliveries the handler body runs exactly once and the
stop event is set once — but the later deliveries are not ignored: each
one raises `KeyboardInterrupt` through the restored default handler. -/
theorem interrupt_handler_runs_once_then_raises :
    ∀ n : ℕ,
      (deliverN (n + 1) initShutdown).1 = handle_interrupt initShutdown ∧
      (deliverN (n + 1) initShutdown).1.handlerRuns = 1 ∧
      (deliverN (n + 1) initShutdown).1.stopSet = true ∧
      (deliverN (n + 1) initShutdown).2 =
        SigOutcome.handled :: List.replicate n SigOutcome.keyboardInterrupt := by
  intro n
  have hu := deliverN_uninstalled_raises n (handle_interrupt initShutdown) rfl
  have hmain : deliverN (n + 1) initShutdown =
      (handle_interrupt initShutdown,
       SigOutcome.handled :: List.replicate n SigOutcome.keyboardInterrupt) := by
    show ((deliverN n (deliverInterrupt initShutdown).1).1,
          (deliverInterrupt initShutdown).2 ::
            (deliverN n (deliverInterrupt initShutdown).1).2) =
      (handle_interrupt initShutdown,
       SigOutcome.handled :: List.replicate n SigOutcome.keyboardInterrupt)
    rw [show (deliverInterrupt initShutdown).1 = handle_interrupt initShutdown
          from rfl, hu]
    rfl
  exact ⟨by rw [hmain], by rw [hmain]; rfl, by rw [hmain]; rfl, by rw [hmain]⟩

end Caldera
